import Mathlib

/-!
Verification of the v8kit binding/marshalling core against its specification.

The development shallowly embeds the C++ sources:
pointers are modelled as integers (addresses), C++ `std::type_index` values as
natural-number type identifiers, fallible operations as `Except Exc`, and the
managed (JavaScript) values as an inductive `JsValue`.  Each definition is a
direct transcription of the corresponding function in the repository
(`src/v8kit/core/MetaInfo.h`, `src/v8kit/core/Engine.h`,
`src/v8kit/binding/TypeConverter.inl`, `src/v8kit/binding/NativeInstanceImpl.h`,
`src/v8kit/binding/Adapter.inl` and the polymorphic-resolution helpers).
-/

/-- The exception kinds of the core (`Exception::Type` in Exception.h). -/
inductive ExcType : Type where
  | unknown
  | error
  | rangeError
  | referenceError
  | syntaxError
  | typeError
  deriving DecidableEq, Repr

/-- A thrown `v8kit::Exception`: a kind plus a message string. -/
structure Exc : Type where
  etype : ExcType
  msg : String
  deriving DecidableEq, Repr

/-- Managed-side (JavaScript) values, as far as the binding core observes them:
the primitive kinds produced by the wrapper constructors (`Null`, `Boolean`,
`Number`, `BigInt`, `String`), arrays, and native-instance wrapper objects
(identified here by the class name of the metadata used to build them).
A JavaScript number is stored as the exact integer it carries; every value the
modelled converters store in a number (an `int32`) is exactly representable in
an IEEE double, so this is faithful for the conversions under study. -/
inductive JsValue : Type where
  | jsNull
  | jsUndefined
  | jsBool (b : Bool)
  | jsNum (n : Int)
  | jsBigInt (n : Int)
  | jsStr (s : String)
  | jsArr (elems : List JsValue)
  | jsNativeObj (className : String)

/-- `Value::isNullOrUndefined` on the managed side. -/
def JsValue.isNullOrUndefined : JsValue → Bool
  | .jsNull => true
  | .jsUndefined => true
  | _ => false

/-- `ReturnValuePolicy` (ReturnValuePolicy.h). -/
inductive ReturnValuePolicy : Type where
  | kAutomatic
  | kCopy
  | kMove
  | kReference
  | kTakeOwnership
  | kReferenceInternal
  deriving DecidableEq, Repr

/-- The static shape of the native value crossing the boundary, i.e. the form
of the template parameter `U` of `handleAutomaticPolicy<U>`: a raw pointer, an
lvalue reference, an rvalue reference, or a plain value. -/
inductive ValueShape : Type where
  | pointer
  | lvalueRef
  | rvalueRef
  | plain
  deriving DecidableEq, Repr

/-- `GenericTypeConverter::handleAutomaticPolicy` (TypeConverter.h lines
216-231): only the `kAutomatic` policy is rewritten, according to the static
shape of the value; every other policy is returned unchanged.  A plain value
(neither pointer nor reference) leaves `kAutomatic` untouched, matching the
fall-through of the `if constexpr` chain. -/
def handleAutomaticPolicy (shape : ValueShape) (policy : ReturnValuePolicy) :
    ReturnValuePolicy :=
  if policy = ReturnValuePolicy.kAutomatic then
    match shape with
    | .pointer => ReturnValuePolicy.kTakeOwnership
    | .lvalueRef => ReturnValuePolicy.kCopy
    | .rvalueRef => ReturnValuePolicy.kMove
    | .plain => policy
  else policy

/-- `ClassMeta` (MetaInfo.h): class name, type identity, whether an instance
constructor callback is registered, the optional upcaster to the direct base,
the optional type-erased copy/move clone hooks, and the optional base-class
metadata.  The base link is embedded as a nested inductive, which encodes the
registration-time invariant that base links are acyclic. -/
inductive ClassMeta : Type where
  | mk (name : String) (typeId : Nat) (hasCtor : Bool)
       (upcaster : Option (Int → Int))
       (copyCloneCtor : Option (Int → Int))
       (moveCloneCtor : Option (Int → Int))
       (base : Option ClassMeta)

/-- The `name_` field of a `ClassMeta`. -/
def ClassMeta.name_ : ClassMeta → String
  | .mk n _ _ _ _ _ _ => n

/-- The `typeId_` field of a `ClassMeta`. -/
def ClassMeta.typeId_ : ClassMeta → Nat
  | .mk _ t _ _ _ _ _ => t

/-- `ClassMeta::hasConstructor`. -/
def ClassMeta.hasConstructor : ClassMeta → Bool
  | .mk _ _ h _ _ _ _ => h

/-- The `upcaster_` field of a `ClassMeta`. -/
def ClassMeta.upcaster_ : ClassMeta → Option (Int → Int)
  | .mk _ _ _ u _ _ _ => u

/-- The `copyCloneCtor_` field of `InstanceMemberMeta` inside a `ClassMeta`. -/
def ClassMeta.copyCloneCtor_ : ClassMeta → Option (Int → Int)
  | .mk _ _ _ _ c _ _ => c

/-- The `moveCloneCtor_` field of `InstanceMemberMeta` inside a `ClassMeta`. -/
def ClassMeta.moveCloneCtor_ : ClassMeta → Option (Int → Int)
  | .mk _ _ _ _ _ m _ => m

/-- The `base_` field of a `ClassMeta`. -/
def ClassMeta.base_ : ClassMeta → Option ClassMeta
  | .mk _ _ _ _ _ _ b => b

/-- `ClassMeta::castTo` (MetaInfo.h lines 104-115): if the target identity is
the class's own, return the pointer unchanged; otherwise, when both a base and
an upcaster exist, apply the upcaster and recurse into the base; otherwise
return null (modelled as `none`). -/
def ClassMeta.castTo : ClassMeta → Int → Nat → Option Int
  | .mk _ tid _ upc _ _ bas, ptr, targetId =>
    if tid = targetId then some ptr
    else
      match bas, upc with
      | some b, some u => b.castTo (u ptr) targetId
      | _, _ => none

/-- The registered inheritance depth of a class: the length of its base
chain. -/
def ClassMeta.depth : ClassMeta → Nat
  | .mk _ _ _ _ _ _ none => 0
  | .mk _ _ _ _ _ _ (some b) => b.depth + 1

/-- The number of upcaster applications performed by `ClassMeta.castTo` on the
same input. -/
def ClassMeta.castToSteps : ClassMeta → Int → Nat → Nat
  | .mk _ tid _ upc _ _ bas, ptr, targetId =>
    if tid = targetId then 0
    else
      match bas, upc with
      | some b, some u => b.castToSteps (u ptr) targetId + 1
      | _, _ => 0

-- ---------------------------------------------------------------------------
-- Managed-resource lifecycle (Engine::addManagedResource, Engine::~Engine)
-- ---------------------------------------------------------------------------

/-- The observable state of one resource registered through
`Engine::addManagedResource` (Engine.h lines 253-278): whether its entry is
still in `managedResources_`, whether the second-phase weak callback has been
scheduled, whether the bookkeeping `ManagedResource` record has been
`delete`d, and how many times `deleter(resource)` has been invoked. -/
structure ResourceState : Type where
  inRegistry : Bool
  secondPassScheduled : Bool
  recordFreed : Bool
  deleterCalls : Nat
  deriving DecidableEq, Repr

/-- State right after `addManagedResource`: the entry is emplaced into
`managedResources_`, nothing has run yet. -/
def afterAddManagedResource : ResourceState :=
  { inRegistry := true, secondPassScheduled := false, recordFreed := false,
    deleterCalls := 0 }

/-- The first-phase GC weak callback (Engine.h lines 259-273): under the
isolate lock it finds the entry (asserted present), erases it from
`managedResources_`, and schedules the second-phase callback.  It does not
invoke `deleter`. -/
def gcFirstPass (s : ResourceState) : ResourceState :=
  if s.inRegistry then
    { s with inRegistry := false, secondPassScheduled := true }
  else s

/-- The second-phase GC weak callback (Engine.h lines 268-272): under the
isolate lock it executes `delete managed`, freeing the bookkeeping record.  It
does not invoke `deleter` either. -/
def gcSecondPass (s : ResourceState) : ResourceState :=
  if s.secondPassScheduled then { s with recordFreed := true } else s

/-- The per-resource effect of `Engine::~Engine` (Engine.h lines 191-195): for
every entry still in `managedResources_`, the weak handle is reset,
`deleter(resource)` is called, the record is deleted, and the map is cleared. -/
def engineTeardownOne (s : ResourceState) : ResourceState :=
  if s.inRegistry then
    { s with inRegistry := false, recordFreed := true,
             deleterCalls := s.deleterCalls + 1 }
  else s

-- ---------------------------------------------------------------------------
-- Class registration (Engine::registerClass)
-- ---------------------------------------------------------------------------

/-- Key membership for the name-keyed class map (`registeredClasses_`). -/
def containsName (l : List (String × ClassMeta)) (k : String) : Bool :=
  l.any fun p => p.1 = k

/-- Key membership for the type-keyed class map (`typeMapping_`). -/
def containsType (l : List (Nat × ClassMeta)) (k : Nat) : Bool :=
  l.any fun p => p.1 = k

/-- The registry state of an `Engine` (Engine.h lines 118-124): the
name-keyed class map `registeredClasses_`, the constructor-template map
`classConstructors_` (keyed in C++ by the `ClassMeta` pointer; a registered
metadata object is identified here by its name, which is unique among the
registered ones because registration rejects duplicate names first), and the
type-keyed map `typeMapping_`. -/
structure EngineState : Type where
  registeredClasses : List (String × ClassMeta)
  classConstructors : List String
  typeMapping : List (Nat × ClassMeta)

/-- The initial registry of a fresh `Engine`: all maps empty. -/
def engineInit : EngineState :=
  { registeredClasses := [], classConstructors := [], typeMapping := [] }

/-- `Engine::registerClass` (Engine.h lines 285-330), restricted to its effect
on the registry maps: reject a duplicate name; for a class with a base, reject
a base without a constructor or a base that was not registered; then emplace
into `registeredClasses_`, `classConstructors_` and `typeMapping_`.  The
`std::unordered_map::emplace` into `typeMapping_` inserts nothing when the
type key is already present.  No duplicate-`typeId_` check is performed. -/
def registerClass (st : EngineState) (meta : ClassMeta) : Except Exc EngineState :=
  if containsName st.registeredClasses meta.name_ then
    Except.error ⟨ExcType.error, "Class already registered: " ++ meta.name_⟩
  else
    let baseCheck : Except Exc Unit :=
      match meta.base_ with
      | none => Except.ok ()
      | some b =>
        if b.hasConstructor = false then
          Except.error ⟨ExcType.error, "Base class must have a constructor: " ++ meta.name_⟩
        else if st.classConstructors.contains b.name_ = false then
          Except.error ⟨ExcType.error, "Base class not registered: " ++ meta.name_⟩
        else Except.ok ()
    match baseCheck with
    | .error e => Except.error e
    | .ok _ =>
      Except.ok
        { registeredClasses := (meta.name_, meta) :: st.registeredClasses
          classConstructors := meta.name_ :: st.classConstructors
          typeMapping :=
            if containsType st.typeMapping meta.typeId_ then st.typeMapping
            else (meta.typeId_, meta) :: st.typeMapping }

/-- Whether a registration attempt succeeded. -/
def registerOk (r : Except Exc EngineState) : Bool :=
  match r with
  | .ok _ => true
  | .error _ => false

/-- Two distinct class metadata sharing one type identity (7) under different
names, used to probe the duplicate-type check of claim C4. -/
def metaSameTypeA : ClassMeta := ClassMeta.mk "A" 7 true none none none none

/-- Second metadata with the same `typeId_` as `metaSameTypeA` but a fresh
name. -/
def metaSameTypeB : ClassMeta := ClassMeta.mk "B" 7 true none none none none

/-- Registering `metaSameTypeA` and then `metaSameTypeB` on a fresh engine. -/
def registerTwiceSameType : Except Exc EngineState :=
  (registerClass engineInit metaSameTypeA).bind fun st =>
    registerClass st metaSameTypeB

-- ---------------------------------------------------------------------------
-- Polymorphic resolution (PolymorphicTypeHook, resolveCastSource)
-- ---------------------------------------------------------------------------

/-- `Engine::getClassDefine` / `getClassMeta` (Engine.h lines 279-283): lookup
in the type-keyed map `typeMapping_`. -/
def getClassDefine (reg : List (Nat × ClassMeta)) (tid : Nat) : Option ClassMeta :=
  match reg.find? (fun p => p.1 = tid) with
  | some p => some p.2
  | none => none

/-- The result of `PolymorphicTypeHook<T>::get` on a non-null pointer
(part_007 lines 12-32): for polymorphic `T` the address of the most-derived
object (`dynamic_cast<const void*>`) and the runtime type (`typeid(*src)`);
for non-polymorphic `T` the pointer itself and the static type.  A null source
yields no hook result (`none` at the use site). -/
structure PolyHookResult : Type where
  dynamicPtr : Int
  dynamicType : Nat
  deriving DecidableEq, Repr

/-- `ResolvedCastSource` (part_007 lines 46-50): the pointer finally used, the
class metadata finally used, and whether a polymorphic downcast resolution
happened. -/
structure ResolvedCastSource : Type where
  ptr : Int
  meta : ClassMeta
  is_downcasted : Bool

/-- `resolveCastSource` (part_007 lines 52-75): try the runtime type reported
by the hook against the registry; on a hit, use the most-derived address and
that metadata.  Otherwise fall back to the statically declared type: use the
original pointer `value` with the static type's metadata, or fail when the
static type is unregistered.  No intermediate ancestor of the runtime type is
ever consulted. -/
def resolveCastSource (reg : List (Nat × ClassMeta)) (staticTypeId : Nat)
    (hook : Option PolyHookResult) (value : Int) :
    Except Exc ResolvedCastSource :=
  match hook with
  | some h =>
    match getClassDefine reg h.dynamicType with
    | some meta => Except.ok ⟨h.dynamicPtr, meta, true⟩
    | none => resolveCastSourceFallback reg staticTypeId value
  | none => resolveCastSourceFallback reg staticTypeId value
where
  /-- Step 3 of `resolveCastSource`: the fallback to the static type. -/
  resolveCastSourceFallback (reg : List (Nat × ClassMeta)) (staticTypeId : Nat)
      (value : Int) : Except Exc ResolvedCastSource :=
    match getClassDefine reg staticTypeId with
    | some meta => Except.ok ⟨value, meta, false⟩
    | none => Except.error ⟨ExcType.error, "Class not registered"⟩

/-- The first type along an inheritance chain (most-derived first) that is
present in the registry — the "nearest registered ancestor" of the claim. -/
def nearestRegisteredAncestor (reg : List (Nat × ClassMeta))
    (chain : List Nat) : Option Nat :=
  chain.find? fun t => (getClassDefine reg t).isSome

/-- The type identity of the metadata a resolution chose, when it succeeded. -/
def resolvedTypeId (r : Except Exc ResolvedCastSource) : Option Nat :=
  match r with
  | .ok x => some x.meta.typeId_
  | .error _ => none

/-- The pointer a resolution chose, when it succeeded. -/
def resolvedPtr (r : Except Exc ResolvedCastSource) : Option Int :=
  match r with
  | .ok x => some x.ptr
  | .error _ => none

-- ---------------------------------------------------------------------------
-- Native-instance factory (factory::createNativeInstance, part_009)
-- ---------------------------------------------------------------------------

/-- The holder forms a native value can cross the boundary in: a raw pointer
`T*` (possibly null), a `std::unique_ptr<T>`, a `std::shared_ptr<T>`, or a
value/reference `T` (whose address is always valid). -/
inductive HolderArg : Type where
  | holdRaw (p : Option Int)
  | holdUnique (p : Option Int)
  | holdShared (p : Option Int)
  | holdValue (addr : Int)

/-- The raw-pointer extraction of `GenericTypeConverter::toJs` (part_006
lines 112-122): a raw pointer is used as is, a smart pointer contributes
`value.get()`, and a value contributes its own address. -/
def HolderArg.extractRawPtr : HolderArg → Option Int
  | .holdRaw p => p
  | .holdUnique p => p
  | .holdShared p => p
  | .holdValue a => some a

/-- A constructed `NativeInstanceImpl` (part_009 lines 25-93): the metadata it
carries and the holder it stores. -/
structure NativeInstanceModel : Type where
  meta : ClassMeta
  holder : HolderArg

/-- The raw-pointer/value policy switch of `factory::createNativeInstance`
(part_009 lines 158-219).  `elemCopyCtor`/`elemMoveCtor` model
`std::is_copy_constructible_v<ElementType>` / `std::is_move_constructible_v`
together with the fresh allocation done by `std::make_unique` — `none` when the
static element type is not copy or move constructible.  `isPointer` records
whether `RawType` is a raw pointer.  `Except.ok none` models returning a null
`std::unique_ptr<NativeInstance>`. -/
def createNativeInstanceRaw (elemTypeId : Nat) (isPointer : Bool) (rawp : Int)
    (policy : ReturnValuePolicy) (resolved : ResolvedCastSource)
    (elemCopyCtor : Option (Int → Int)) (elemMoveCtor : Option (Int → Int)) :
    Except Exc (Option NativeInstanceModel) :=
  match policy with
  | .kCopy =>
    if resolved.is_downcasted then
      match resolved.meta.copyCloneCtor_ with
      | none =>
        Except.error ⟨ExcType.error,
          "Polymorphic type '" ++ resolved.meta.name_ ++ "' is not copy constructible"⟩
      | some clone =>
        match resolved.meta.castTo (clone resolved.ptr) elemTypeId with
        | none =>
          Except.error ⟨ExcType.error,
            "Failed to upcast cloned polymorphic object to base type"⟩
        | some basePtr =>
          Except.ok (some ⟨resolved.meta, HolderArg.holdUnique (some basePtr)⟩)
    else
      match elemCopyCtor with
      | some mkCopy =>
        Except.ok (some ⟨resolved.meta, HolderArg.holdUnique (some (mkCopy rawp))⟩)
      | none => Except.error ⟨ExcType.error, "Object is not copy constructible"⟩
  | .kMove =>
    if resolved.is_downcasted then
      match resolved.meta.moveCloneCtor_ with
      | none =>
        Except.error ⟨ExcType.error,
          "Polymorphic type '" ++ resolved.meta.name_ ++ "' is not move constructible"⟩
      | some clone =>
        match resolved.meta.castTo (clone resolved.ptr) elemTypeId with
        | none =>
          Except.error ⟨ExcType.error,
            "Failed to upcast cloned polymorphic object to base type"⟩
        | some basePtr =>
          Except.ok (some ⟨resolved.meta, HolderArg.holdUnique (some basePtr)⟩)
    else
      match elemMoveCtor with
      | some mkMove =>
        Except.ok (some ⟨resolved.meta, HolderArg.holdUnique (some (mkMove rawp))⟩)
      | none => Except.error ⟨ExcType.error, "Object is not move constructible"⟩
  | .kTakeOwnership =>
    if isPointer then
      Except.ok (some ⟨resolved.meta, HolderArg.holdUnique (some rawp)⟩)
    else Except.error ⟨ExcType.error, "Cannot take ownership of non-pointer"⟩
  | .kReference =>
    Except.ok (some ⟨resolved.meta, HolderArg.holdRaw (some rawp)⟩)
  | .kReferenceInternal =>
    Except.ok (some ⟨resolved.meta, HolderArg.holdRaw (some rawp)⟩)
  | .kAutomatic =>
    Except.error ⟨ExcType.error, "Unknown return value policy"⟩

/-- `factory::createNativeInstance` (part_009 lines 116-220): smart pointers
are wrapped directly (copying a `unique_ptr` is rejected); a null raw pointer
yields a null instance; otherwise the policy switch of
`createNativeInstanceRaw` runs on the extracted raw pointer. -/
def createNativeInstance (elemTypeId : Nat) (arg : HolderArg)
    (policy : ReturnValuePolicy) (resolved : ResolvedCastSource)
    (elemCopyCtor : Option (Int → Int)) (elemMoveCtor : Option (Int → Int)) :
    Except Exc (Option NativeInstanceModel) :=
  match arg with
  | .holdUnique p =>
    if policy = ReturnValuePolicy.kCopy then
      Except.error ⟨ExcType.error, "Cannot copy unique_ptr"⟩
    else Except.ok (some ⟨resolved.meta, HolderArg.holdUnique p⟩)
  | .holdShared p => Except.ok (some ⟨resolved.meta, HolderArg.holdShared p⟩)
  | .holdRaw none => Except.ok none
  | .holdRaw (some p) =>
    createNativeInstanceRaw elemTypeId true p policy resolved elemCopyCtor elemMoveCtor
  | .holdValue a =>
    createNativeInstanceRaw elemTypeId false a policy resolved elemCopyCtor elemMoveCtor

/-- `GenericTypeConverter::toJs` (part_006 lines 107-143): resolve the
`Automatic` policy, return the managed null for a null raw/smart pointer,
otherwise resolve the polymorphic cast source, build the `NativeInstance`
through the factory (a null instance also yields the managed null), wrap it
into a managed object via `Engine::newInstance`, and enforce the
`kReferenceInternal` parent requirement. -/
def genericToJs (reg : List (Nat × ClassMeta)) (staticTypeId : Nat)
    (shape : ValueShape) (arg : HolderArg) (hook : Int → PolyHookResult)
    (elemCopyCtor : Option (Int → Int)) (elemMoveCtor : Option (Int → Int))
    (declaredPolicy : ReturnValuePolicy) (parentIsObject : Bool) :
    Except Exc (JsValue × Option NativeInstanceModel) :=
  let policy := handleAutomaticPolicy shape declaredPolicy
  match arg.extractRawPtr with
  | none => Except.ok (JsValue.jsNull, none)
  | some rawp =>
    match resolveCastSource reg staticTypeId (some (hook rawp)) rawp with
    | .error e => Except.error e
    | .ok resolved =>
      match createNativeInstance staticTypeId arg policy resolved
          elemCopyCtor elemMoveCtor with
      | .error e => Except.error e
      | .ok none => Except.ok (JsValue.jsNull, none)
      | .ok (some inst) =>
        if policy = ReturnValuePolicy.kReferenceInternal ∧ parentIsObject = false then
          Except.error ⟨ExcType.error, "kReferenceInternal requires a valid parent object"⟩
        else Except.ok (JsValue.jsNativeObj resolved.meta.name_, some inst)

-- ---------------------------------------------------------------------------
-- Theorems for claims C5 and C7
-- ---------------------------------------------------------------------------

/-- Claim C5: a native value with declared policy `Automatic` is resolved
purely from its static shape: a raw pointer becomes `TakeOwnership`, an lvalue
reference becomes `Copy`, an rvalue reference becomes `Move`; any declared
policy other than `Automatic` is returned unchanged. -/
theorem v8kit_C5_automatic_policy_resolution :
    handleAutomaticPolicy ValueShape.pointer ReturnValuePolicy.kAutomatic =
        ReturnValuePolicy.kTakeOwnership
    ∧ handleAutomaticPolicy ValueShape.lvalueRef ReturnValuePolicy.kAutomatic =
        ReturnValuePolicy.kCopy
    ∧ handleAutomaticPolicy ValueShape.rvalueRef ReturnValuePolicy.kAutomatic =
        ReturnValuePolicy.kMove
    ∧ ∀ (s : ValueShape) (p : ReturnValuePolicy),
        p ≠ ReturnValuePolicy.kAutomatic → handleAutomaticPolicy s p = p := by
  refine ⟨rfl, rfl, rfl, ?_⟩
  intro s p hp
  unfold handleAutomaticPolicy
  simp [hp]

/-- Witness for C5: resolving a non-`Automatic` policy (here `Reference` on a
pointer) leaves it unchanged. -/
theorem v8kit_C5_witness :
    handleAutomaticPolicy ValueShape.pointer ReturnValuePolicy.kReference =
      ReturnValuePolicy.kReference :=
  v8kit_C5_automatic_policy_resolution.2.2.2 ValueShape.pointer
    ReturnValuePolicy.kReference (by decide)

/-- Helper for claim C7: `castTo` performs at most `depth` upcaster
applications; proved by the same structural recursion that defines `castTo`. -/
def ClassMeta.stepsLeDepth : (m : ClassMeta) → ∀ (ptr : Int) (t : Nat),
    m.castToSteps ptr t ≤ m.depth
  | .mk n tid hc upc cc mc none, ptr, t => by
    rw [ClassMeta.castToSteps.eq_def]
    cases upc <;> simp [ClassMeta.depth]
  | .mk n tid hc upc cc mc (some b), ptr, t => by
    rw [ClassMeta.castToSteps.eq_def]
    by_cases h : tid = t
    · simp [h]
    · cases upc with
      | none => simp [h]
      | some u =>
        have hb := ClassMeta.stepsLeDepth b (u ptr) t
        simp only [if_neg h, ClassMeta.depth]
        omega

/-- Claim C7: `castTo` returns the pointer unchanged when the target identity
is the class's own; otherwise with a base and an upcaster it recurses into the
base at the upcasted pointer (so the pointer value may change at each link);
with no base or no upcaster it returns null; and (acyclicity of base links
being built into the inductive metadata) it performs at most `depth` upcaster
applications, i.e. terminates within the registered inheritance depth. -/
theorem v8kit_C7_castTo_spec :
    (∀ (m : ClassMeta) (ptr : Int) (t : Nat),
        m.typeId_ = t → m.castTo ptr t = some ptr)
    ∧ (∀ (m b : ClassMeta) (u : Int → Int) (ptr : Int) (t : Nat),
        m.typeId_ ≠ t → m.base_ = some b → m.upcaster_ = some u →
          m.castTo ptr t = b.castTo (u ptr) t)
    ∧ (∀ (m : ClassMeta) (ptr : Int) (t : Nat),
        m.typeId_ ≠ t → (m.base_ = none ∨ m.upcaster_ = none) →
          m.castTo ptr t = none)
    ∧ (∀ (m : ClassMeta) (ptr : Int) (t : Nat), m.castToSteps ptr t ≤ m.depth) := by
  refine ⟨?_, ?_, ?_, fun m ptr t => ClassMeta.stepsLeDepth m ptr t⟩
  · intro m ptr t h
    cases m with
    | mk n tid hc upc cc mc bas =>
      simp only [ClassMeta.typeId_] at h
      subst h
      rw [ClassMeta.castTo.eq_def]
      simp
  · intro m b u ptr t hne hb hu
    cases m with
    | mk n tid hc upc cc mc bas =>
      simp only [ClassMeta.typeId_] at hne
      simp only [ClassMeta.base_] at hb
      simp only [ClassMeta.upcaster_] at hu
      subst hb; subst hu
      rw [ClassMeta.castTo.eq_def]
      simp [hne]
  · intro m ptr t hne hcase
    cases m with
    | mk n tid hc upc cc mc bas =>
      simp only [ClassMeta.typeId_] at hne
      rw [ClassMeta.castTo.eq_def]
      rcases hcase with h | h
      · simp only [ClassMeta.base_] at h
        subst h
        simp [hne]
      · simp only [ClassMeta.upcaster_] at h
        subst h
        cases bas <;> simp [hne]

/-- Witness for C7: a two-level chain with a non-trivial pointer offset.  The
derived class (identity 2, upcaster adding 8) casts pointer 100 to the base
identity 1 through the base link, yielding the offset address 108. -/
theorem v8kit_C7_witness :
    (ClassMeta.mk "Derived" 2 true (some (fun p => p + 8)) none none
        (some (ClassMeta.mk "Base" 1 true none none none none))).castTo 100 1 =
      (ClassMeta.mk "Base" 1 true none none none none).castTo 108 1 :=
  v8kit_C7_castTo_spec.2.1
    (ClassMeta.mk "Derived" 2 true (some (fun p => p + 8)) none none
      (some (ClassMeta.mk "Base" 1 true none none none none)))
    (ClassMeta.mk "Base" 1 true none none none none)
    (fun p => p + 8) 100 1 (by decide) rfl rfl

/-- Claim C1 (code bug): after the two-phase GC weak callback runs for a
registered resource, the registry entry is gone (so a second notification and
a later teardown can no longer act on it — the no-double-deletion half of the
claim holds), but `deleter(resource)` has been invoked zero times, not exactly
once: the first phase only erases the map entry and the second phase only
frees the bookkeeping `ManagedResource` record, so the native resource leaks.
Only the teardown path (`Engine::~Engine`) reached without a prior collection
calls the deleter exactly once. -/
theorem v8kit_C1_gc_weak_callback_never_calls_deleter :
    (gcSecondPass (gcFirstPass afterAddManagedResource)).deleterCalls = 0
    ∧ (gcSecondPass (gcFirstPass afterAddManagedResource)).inRegistry = false
    ∧ (gcSecondPass (gcFirstPass afterAddManagedResource)).recordFreed = true
    ∧ (engineTeardownOne
        (gcSecondPass (gcFirstPass afterAddManagedResource))).deleterCalls = 0
    ∧ (engineTeardownOne afterAddManagedResource).deleterCalls = 1 := by
  decide

/-- Claim C4 counterexample: registering a class whose `typeId_` (7) is
already present in the registry succeeds whenever its name is fresh — no
AlreadyRegistered-class failure is raised for a duplicate type identity, so
the claim as stated is false. -/
theorem v8kit_C4_counterexample :
    metaSameTypeA.typeId_ = metaSameTypeB.typeId_
    ∧ metaSameTypeA.name_ ≠ metaSameTypeB.name_
    ∧ registerOk registerTwiceSameType = true := by
  refine ⟨rfl, by decide, rfl⟩

/-- Claim C4 (amended): registration fails with an AlreadyRegistered-class
error exactly when the class name was seen before; a registration with a fresh
name (and no base link) succeeds, appending the metadata to the name-keyed map
and the constructor map, while the type-keyed map is only extended when the
type identity is fresh (the `emplace` is a no-op on a duplicate type key).  In
particular a fresh name together with a fresh type identity adds the metadata
to both maps. -/
theorem v8kit_C4_register_checks :
    (∀ (st : EngineState) (meta : ClassMeta),
        containsName st.registeredClasses meta.name_ = true →
          registerClass st meta =
            Except.error ⟨ExcType.error, "Class already registered: " ++ meta.name_⟩)
    ∧ (∀ (st : EngineState) (meta : ClassMeta),
        containsName st.registeredClasses meta.name_ = false →
        meta.base_ = none →
          registerClass st meta =
            Except.ok
              { registeredClasses := (meta.name_, meta) :: st.registeredClasses
                classConstructors := meta.name_ :: st.classConstructors
                typeMapping :=
                  if containsType st.typeMapping meta.typeId_ then st.typeMapping
                  else (meta.typeId_, meta) :: st.typeMapping })
    ∧ (∀ (st : EngineState) (meta : ClassMeta),
        containsName st.registeredClasses meta.name_ = false →
        containsType st.typeMapping meta.typeId_ = false →
        meta.base_ = none →
          registerClass st meta =
            Except.ok
              { registeredClasses := (meta.name_, meta) :: st.registeredClasses
                classConstructors := meta.name_ :: st.classConstructors
                typeMapping := (meta.typeId_, meta) :: st.typeMapping }) := by
  refine ⟨?_, ?_, ?_⟩
  · intro st meta h
    simp [registerClass, h]
  · intro st meta hname hbase
    simp [registerClass, hname, hbase]
  · intro st meta hname htype hbase
    simp [registerClass, hname, hbase, htype]

/-- Witness for C4: on a fresh engine, registering `metaSameTypeA` (fresh name
"A", fresh type identity 7, no base) succeeds and populates all three maps. -/
theorem v8kit_C4_witness :
    registerClass engineInit metaSameTypeA =
      Except.ok
        { registeredClasses := [(metaSameTypeA.name_, metaSameTypeA)]
          classConstructors := [metaSameTypeA.name_]
          typeMapping := [(metaSameTypeA.typeId_, metaSameTypeA)] } :=
  v8kit_C4_register_checks.2.2 engineInit metaSameTypeA rfl rfl rfl

/-- Registered base metadata (type identity 10) for the C2 scenario. -/
def metaAncA : ClassMeta := ClassMeta.mk "AncA" 10 true none none none none

/-- Registered intermediate metadata (type identity 11) whose base is
`metaAncA`, for the C2 scenario. -/
def metaAncB : ClassMeta :=
  ClassMeta.mk "AncB" 11 true none none none (some metaAncA)

/-- A registry containing `metaAncA` and `metaAncB`; the most-derived type of
the C2 scenario (identity 12) is deliberately absent. -/
def demoPolyReg : List (Nat × ClassMeta) := [(10, metaAncA), (11, metaAncB)]

/-- Claim C2 counterexample: for an object of unregistered runtime type 12
with inheritance chain 12 → 11 → 10, reached through a static pointer of type
10, the nearest registered ancestor is 11 (`metaAncB`), but the resolver falls
back to the static type 10 (`metaAncA`).  It does pair that fallback with the
original static pointer (40), not the most-derived address (100). -/
theorem v8kit_C2_counterexample :
    nearestRegisteredAncestor demoPolyReg [12, 11, 10] = some 11
    ∧ resolvedTypeId (resolveCastSource demoPolyReg 10 (some ⟨100, 12⟩) 40) = some 10
    ∧ resolvedPtr (resolveCastSource demoPolyReg 10 (some ⟨100, 12⟩) 40) = some 40
    ∧ (11 : Nat) ≠ 10 := by
  refine ⟨rfl, rfl, rfl, by decide⟩

/-- Claim C2 (amended): when the exact runtime type is registered the resolver
returns the most-derived address paired with that type's metadata; when it is
not, the resolver falls back to the statically declared type only — pairing
that static metadata with the original statically-typed pointer, never the
most-derived address — and fails when the static type itself is unregistered,
even if some intermediate ancestor is registered. -/
theorem v8kit_C2_fallback_uses_static_type :
    (∀ (reg : List (Nat × ClassMeta)) (staticTy : Nat) (h : PolyHookResult)
        (value : Int) (m : ClassMeta),
        getClassDefine reg h.dynamicType = some m →
          resolveCastSource reg staticTy (some h) value =
            Except.ok ⟨h.dynamicPtr, m, true⟩)
    ∧ (∀ (reg : List (Nat × ClassMeta)) (staticTy : Nat) (h : PolyHookResult)
        (value : Int) (m : ClassMeta),
        getClassDefine reg h.dynamicType = none →
        getClassDefine reg staticTy = some m →
          resolveCastSource reg staticTy (some h) value =
            Except.ok ⟨value, m, false⟩)
    ∧ (∀ (reg : List (Nat × ClassMeta)) (staticTy : Nat) (h : PolyHookResult)
        (value : Int),
        getClassDefine reg h.dynamicType = none →
        getClassDefine reg staticTy = none →
          resolveCastSource reg staticTy (some h) value =
            Except.error ⟨ExcType.error, "Class not registered"⟩) := by
  refine ⟨?_, ?_, ?_⟩
  · intro reg staticTy h value m hdyn
    simp [resolveCastSource, hdyn]
  · intro reg staticTy h value m hdyn hstat
    simp [resolveCastSource, resolveCastSource.resolveCastSourceFallback, hdyn, hstat]
  · intro reg staticTy h value hdyn hstat
    simp [resolveCastSource, resolveCastSource.resolveCastSourceFallback, hdyn, hstat]

/-- Witness for C2: the fallback of the counterexample scenario, obtained by
applying the amended theorem at runtime type 12 and static type 10. -/
theorem v8kit_C2_witness :
    resolveCastSource demoPolyReg 10 (some ⟨100, 12⟩) 40 =
      Except.ok ⟨40, metaAncA, false⟩ :=
  v8kit_C2_fallback_uses_static_type.2.1 demoPolyReg 10 ⟨100, 12⟩ 40 metaAncA
    rfl rfl

/-- Claim C3: materializing under `Copy` policy a value whose runtime type was
polymorphically resolved (`is_downcasted`) uses the registered
`copyCloneCtor`, upcasting the clone back to the statically declared element
type; when no `copyCloneCtor` is registered it fails with the
NotCopyable-class error — irrespective of `elemCopyCtor`, i.e. even when the
static element type itself is copy constructible, it never falls through to
the plain (slicing) copy.  `Move` behaves analogously with `moveCloneCtor`. -/
theorem v8kit_C3_polymorphic_copy_requires_clone_hook :
    (∀ (elemTy : Nat) (isPtr : Bool) (rawp : Int) (resolved : ResolvedCastSource)
        (ecc emc : Option (Int → Int)),
        resolved.is_downcasted = true → resolved.meta.copyCloneCtor_ = none →
          createNativeInstanceRaw elemTy isPtr rawp ReturnValuePolicy.kCopy
              resolved ecc emc =
            Except.error ⟨ExcType.error,
              "Polymorphic type '" ++ resolved.meta.name_ ++ "' is not copy constructible"⟩)
    ∧ (∀ (elemTy : Nat) (isPtr : Bool) (rawp : Int) (resolved : ResolvedCastSource)
        (ecc emc : Option (Int → Int)) (clone : Int → Int),
        resolved.is_downcasted = true → resolved.meta.copyCloneCtor_ = some clone →
          createNativeInstanceRaw elemTy isPtr rawp ReturnValuePolicy.kCopy
              resolved ecc emc =
            match resolved.meta.castTo (clone resolved.ptr) elemTy with
            | some basePtr =>
              Except.ok (some ⟨resolved.meta, HolderArg.holdUnique (some basePtr)⟩)
            | none =>
              Except.error ⟨ExcType.error,
                "Failed to upcast cloned polymorphic object to base type"⟩)
    ∧ (∀ (elemTy : Nat) (isPtr : Bool) (rawp : Int) (resolved : ResolvedCastSource)
        (ecc emc : Option (Int → Int)),
        resolved.is_downcasted = true → resolved.meta.moveCloneCtor_ = none →
          createNativeInstanceRaw elemTy isPtr rawp ReturnValuePolicy.kMove
              resolved ecc emc =
            Except.error ⟨ExcType.error,
              "Polymorphic type '" ++ resolved.meta.name_ ++ "' is not move constructible"⟩)
    ∧ (∀ (elemTy : Nat) (isPtr : Bool) (rawp : Int) (resolved : ResolvedCastSource)
        (ecc emc : Option (Int → Int)) (clone : Int → Int),
        resolved.is_downcasted = true → resolved.meta.moveCloneCtor_ = some clone →
          createNativeInstanceRaw elemTy isPtr rawp ReturnValuePolicy.kMove
              resolved ecc emc =
            match resolved.meta.castTo (clone resolved.ptr) elemTy with
            | some basePtr =>
              Except.ok (some ⟨resolved.meta, HolderArg.holdUnique (some basePtr)⟩)
            | none =>
              Except.error ⟨ExcType.error,
                "Failed to upcast cloned polymorphic object to base type"⟩) := by
  refine ⟨?_, ?_, ?_, ?_⟩
  · intro elemTy isPtr rawp resolved ecc emc hdown hnone
    simp [createNativeInstanceRaw, hdown, hnone]
  · intro elemTy isPtr rawp resolved ecc emc clone hdown hsome
    simp only [createNativeInstanceRaw, hdown, hsome, if_true]
    cases resolved.meta.castTo (clone resolved.ptr) elemTy <;> simp
  · intro elemTy isPtr rawp resolved ecc emc hdown hnone
    simp [createNativeInstanceRaw, hdown, hnone]
  · intro elemTy isPtr rawp resolved ecc emc clone hdown hsome
    simp only [createNativeInstanceRaw, hdown, hsome, if_true]
    cases resolved.meta.castTo (clone resolved.ptr) elemTy <;> simp

/-- A polymorphic derived metadata with no registered clone hooks, used to
witness claim C3. -/
def metaNoCloneHooks : ClassMeta :=
  ClassMeta.mk "NoCloneHooks" 21 true (some (fun p => p + 16)) none none
    (some (ClassMeta.mk "CloneBase" 20 true none none none none))

/-- Witness for C3: a downcast-resolved value of `metaNoCloneHooks` under
`Copy` policy fails with the NotCopyable-class error even though the static
element type is copy constructible (`some` copy constructor supplied). -/
theorem v8kit_C3_witness :
    createNativeInstanceRaw 20 true 50 ReturnValuePolicy.kCopy
        ⟨100, metaNoCloneHooks, true⟩ (some (fun p => p + 1)) none =
      Except.error ⟨ExcType.error,
        "Polymorphic type '" ++ metaNoCloneHooks.name_ ++ "' is not copy constructible"⟩ :=
  v8kit_C3_polymorphic_copy_requires_clone_hook.1 20 true 50
    ⟨100, metaNoCloneHooks, true⟩ (some (fun p => p + 1)) none rfl rfl

/-- Claim C10: a null native pointer crossing to the managed side — whether a
raw `T*`, a null-holding `unique_ptr`, or a null-holding `shared_ptr` — is
converted to the managed null value under every declared policy and shape: no
`NativeInstance` is created, no wrapper object is constructed, and no error is
raised. -/
theorem v8kit_C10_null_pointer_to_null :
    ∀ (reg : List (Nat × ClassMeta)) (staticTy : Nat) (shape : ValueShape)
      (hook : Int → PolyHookResult) (ecc emc : Option (Int → Int))
      (policy : ReturnValuePolicy) (parent : Bool),
      genericToJs reg staticTy shape (HolderArg.holdRaw none) hook ecc emc
          policy parent = Except.ok (JsValue.jsNull, none)
      ∧ genericToJs reg staticTy shape (HolderArg.holdUnique none) hook ecc emc
          policy parent = Except.ok (JsValue.jsNull, none)
      ∧ genericToJs reg staticTy shape (HolderArg.holdShared none) hook ecc emc
          policy parent = Except.ok (JsValue.jsNull, none) := by
  intro reg staticTy shape hook ecc emc policy parent
  refine ⟨rfl, rfl, rfl⟩

/-- `TypeConverter<StringLike>::toCpp` (TypeConverter.inl lines 55-60):
`value.asString().getValue()`.  `asString` itself lives in Reference.h (not
among the sources); the repository's own overload test
(`StaticClass.append(123, 'world')` must fail with "no overload found" in
binding_test.cc) pins down that it throws a TypeError-class exception on a
non-string value, which is what is modelled here. -/
def stringToCpp : JsValue → Except Exc String
  | .jsStr s => Except.ok s
  | _ => Except.error ⟨ExcType.typeError, "Value is not a String"⟩

/-- `TypeConverter<StringLike>::toJs` (TypeConverter.inl line 58). -/
def stringToJs (s : String) : JsValue := JsValue.jsStr s

/-- Wrap of an integer into the signed 32-bit range, the effect of the C++
integral conversion to `int`. -/
def wrap32 (n : Int) : Int :=
  if n % (2 ^ 32) < 2 ^ 31 then n % (2 ^ 32) else n % (2 ^ 32) - 2 ^ 32

/-- Wrap of an integer into the signed 64-bit range, the effect of
`v8::BigInt::Int64Value` / the C++ integral conversion to `int64_t`. -/
def wrap64 (n : Int) : Int :=
  if n % (2 ^ 64) < 2 ^ 63 then n % (2 ^ 64) else n % (2 ^ 64) - 2 ^ 64

/-- `TypeConverter<NumberLike>::toCpp` at `T = int` (TypeConverter.inl lines
39-51): a JavaScript number is read back through `getValueAs<int>` (exact for
every value a C++ `int` can produce, since an `int32` is exactly representable
in a double); a BigInt is read through `getUint64`, whose value then undergoes
the integral conversion to `int`; anything else throws a TypeError. -/
def intToCpp : JsValue → Except Exc Int
  | .jsNum n => Except.ok n
  | .jsBigInt n => Except.ok (wrap32 (n % (2 ^ 64)))
  | _ => Except.error ⟨ExcType.typeError, "Cannot convert value to NumberLike<T>"⟩

/-- `TypeConverter<NumberLike>::toJs` at `T = int` (TypeConverter.inl lines
32-38): an `int` maps to the plain number kind. -/
def intToJs (n : Int) : JsValue := JsValue.jsNum n

/-- `TypeConverter<NumberLike>::toCpp` at `T = int64_t`: a number maps through
`getValueAs<int64_t>`; a BigInt is read exactly through `getInt64`
(64-bit-wrapped). -/
def int64ToCpp : JsValue → Except Exc Int
  | .jsNum n => Except.ok n
  | .jsBigInt n => Except.ok (wrap64 n)
  | _ => Except.error ⟨ExcType.typeError, "Cannot convert value to NumberLike<T>"⟩

/-- `TypeConverter<NumberLike>::toJs` at `T = int64_t`: a 64-bit integer maps
to the BigInt kind (not the number kind), to avoid precision loss. -/
def int64ToJs (n : Int) : JsValue := JsValue.jsBigInt n

/-- `TypeConverter<bool>::toCpp` (TypeConverter.inl lines 22-26):
`value.asBoolean().getValue()`; non-boolean kinds are rejected by the
`asBoolean` wrapper (Reference.h, not among the sources; modelled as the other
kind-checked accessors). -/
def boolToCpp : JsValue → Except Exc Bool
  | .jsBool b => Except.ok b
  | _ => Except.error ⟨ExcType.typeError, "Value is not a Boolean"⟩

/-- `TypeConverter<bool>::toJs` (TypeConverter.inl line 24). -/
def boolToJs (b : Bool) : JsValue := JsValue.jsBool b

/-- A bidirectional converter pair, the shape of a `TypeConverter<T>`
specialization. -/
structure Conv (α : Type) : Type where
  toJs : α → JsValue
  toCpp : JsValue → Except Exc α

/-- The `bool` converter as a pair. -/
def boolConv : Conv Bool := ⟨boolToJs, boolToCpp⟩

/-- The string converter as a pair. -/
def strConv : Conv String := ⟨stringToJs, stringToCpp⟩

/-- The `int` converter as a pair. -/
def intConv : Conv Int := ⟨intToJs, intToCpp⟩

/-- The `int64_t` converter as a pair. -/
def int64Conv : Conv Int := ⟨int64ToJs, int64ToCpp⟩

/-- `TypeConverter<std::optional<T>>` (TypeConverter.inl lines 71-85): absence
maps to the managed null; a null-or-undefined managed value maps back to
absence, anything else through the element converter. -/
def optionConv {α : Type} (c : Conv α) : Conv (Option α) where
  toJs
    | none => JsValue.jsNull
    | some a => c.toJs a
  toCpp v :=
    if v.isNullOrUndefined then Except.ok none
    else (c.toCpp v).map some

/-- The element loop of `TypeConverter<std::vector<T>>::toCpp`
(TypeConverter.inl lines 97-106): convert the array elements left to right,
aborting on the first element conversion failure. -/
def mapToCpp {α : Type} (c : JsValue → Except Exc α) :
    List JsValue → Except Exc (List α)
  | [] => Except.ok []
  | v :: vs => (c v).bind fun a => (mapToCpp c vs).map fun l => a :: l

/-- `TypeConverter<std::vector<T>>` (TypeConverter.inl lines 87-107):
element-wise conversion preserving order in both directions; a non-array
managed value is rejected by `asArray`; an element conversion failure aborts
the whole conversion. -/
def vectorConv {α : Type} (c : Conv α) : Conv (List α) where
  toJs l := JsValue.jsArr (l.map c.toJs)
  toCpp v :=
    match v with
    | .jsArr es => mapToCpp c.toCpp es
    | _ => Except.error ⟨ExcType.typeError, "Value is not an Array"⟩

-- ---------------------------------------------------------------------------
-- Adapter: function wrapping and overload dispatch (Adapter.inl)
-- ---------------------------------------------------------------------------

/-- A wrapped managed-callable candidate (`FunctionCallback`). -/
abbrev OverloadFn : Type := List JsValue → Except Exc JsValue

/-- The `NoOverloadFound` failure thrown by `dispatchOverloadImpl`
(Adapter.inl line 103). -/
def noOverloadFound : Exc := ⟨ExcType.typeError, "no overload found"⟩

/-- `dispatchOverloadImpl` (Adapter.inl lines 93-108): candidates are invoked
in order; an exception from a candidate is swallowed and the next candidate is
tried, except at the last candidate, where `NoOverloadFound` is thrown.  An
empty overload array falls through the loop and returns a default-constructed
value (an empty `Local<Value>`, i.e. undefined). -/
def dispatchOverload : List OverloadFn → List JsValue → Except Exc JsValue
  | [], _ => Except.ok JsValue.jsUndefined
  | [f], args =>
    match f args with
    | .ok v => Except.ok v
    | .error _ => Except.error noOverloadFound
  | f :: g :: rest, args =>
    match f args with
    | .ok v => Except.ok v
    | .error _ => dispatchOverload (g :: rest) args

/-- `wrapFunction` (Adapter.inl lines 67-90) for a binary native function:
the argument count must match the native arity exactly (otherwise a
TypeError-class "argument count mismatch" is thrown), each argument is
converted left to right (a conversion failure aborts the call), and the native
result — here already composed with its return conversion — is produced. -/
def wrapFunction2 {α β : Type} (c₁ : JsValue → Except Exc α)
    (c₂ : JsValue → Except Exc β) (f : α → β → JsValue) : OverloadFn :=
  fun args =>
    match args with
    | [a₀, a₁] =>
      (c₁ a₀).bind fun x => (c₂ a₁).bind fun y => Except.ok (f x y)
    | _ => Except.error ⟨ExcType.typeError, "argument count mismatch"⟩

/-- The `(string, string)` overload of `StaticClass::append`
(binding_test.cc): string concatenation. -/
def appendStrStr : OverloadFn :=
  wrapFunction2 stringToCpp stringToCpp fun a b => JsValue.jsStr (a ++ b)

/-- The `(string, int)` overload of `StaticClass::append` (binding_test.cc):
string plus decimal rendering of the integer. -/
def appendStrInt : OverloadFn :=
  wrapFunction2 stringToCpp intToCpp fun s n => JsValue.jsStr (s ++ toString n)

-- ---------------------------------------------------------------------------
-- Read-only properties (Engine::buildStaticMembers, buildInstanceMembers)
-- ---------------------------------------------------------------------------

/-- What `registerClass` installs as the managed-side setter of a bound
property: a wrapper invoking the native setter, a stub that always throws a
TypeError, or nothing at all (an accessor property without a setter). -/
inductive JsSetterSlot : Type where
  | nativeSetter
  | throwReadonlyTypeError
  | noSetter
  deriving DecidableEq, Repr

/-- The static-property setter installation of `Engine::buildStaticMembers`
(Engine.h lines 543-557): a property with a native setter gets a wrapper that
invokes it; a read-only property gets an explicit setter stub that throws
"Cannot write to read-only native property" as a TypeError. -/
def buildStaticPropertySlot (hasSetter : Bool) : JsSetterSlot :=
  if hasSetter then JsSetterSlot.nativeSetter
  else JsSetterSlot.throwReadonlyTypeError

/-- The instance-property setter installation of
`Engine::buildInstanceMembers` (Engine.h lines 637-692): a property with a
native setter gets a wrapper invoking it; a read-only property leaves the
setter `FunctionTemplate` empty, so `SetAccessorProperty` installs an accessor
with no setter at all — no throwing stub is installed. -/
def buildInstancePropertySlot (hasSetter : Bool) : JsSetterSlot :=
  if hasSetter then JsSetterSlot.nativeSetter else JsSetterSlot.noSetter

/-- The TypeError thrown by the static read-only setter stub (Engine.h line
555). -/
def readonlyWriteExc : Exc :=
  ⟨ExcType.typeError, "Cannot write to read-only native property"⟩

/-- The TypeError the external VM raises for a strict-mode assignment to an
accessor property that has no setter. -/
def strictNoSetterExc : Exc :=
  ⟨ExcType.typeError, "Cannot assign to read only property"⟩

/-- The external VM's semantics of a property write against the installed
slot (ECMAScript OrdinarySet on an accessor property): an installed setter
runs; an accessor with no setter rejects the write with a TypeError in strict
mode and silently ignores it in sloppy mode.  `nativeSet` is the effect of
the native setter on the underlying native value `current`; the returned value
is the native value after the attempted write. -/
def hostWrite (slot : JsSetterSlot) (strict : Bool) (nativeSet : Int → Int)
    (current : Int) : Except Exc Int :=
  match slot with
  | .nativeSetter => Except.ok (nativeSet current)
  | .throwReadonlyTypeError => Except.error readonlyWriteExc
  | .noSetter =>
    if strict then Except.error strictNoSetterExc else Except.ok current

-- ---------------------------------------------------------------------------
-- Theorems for claims C6, C8 and C9
-- ---------------------------------------------------------------------------

/-- Claim C6: overload candidates are tried in registration order; a candidate
that throws (conversion failure or argument-count mismatch alike) is treated
as not matching and the next candidate is tried; the first succeeding
candidate's result is returned; if all candidates fail, the call fails with
`NoOverloadFound`.  Concretely, with overloads `(string, string)` then
`(string, int)` registered in that order, calling with `(string, int)` selects
the second, and calling with `(int, string)` fails with `NoOverloadFound`. -/
theorem v8kit_C6_overload_dispatch :
    (∀ (f : OverloadFn) (rest : List OverloadFn) (args : List JsValue)
        (v : JsValue), f args = Except.ok v →
          dispatchOverload (f :: rest) args = Except.ok v)
    ∧ (∀ (f g : OverloadFn) (rest : List OverloadFn) (args : List JsValue)
        (e : Exc), f args = Except.error e →
          dispatchOverload (f :: g :: rest) args =
            dispatchOverload (g :: rest) args)
    ∧ (∀ (fs : List OverloadFn) (args : List JsValue), fs ≠ [] →
        (∀ f ∈ fs, ∃ e, f args = Except.error e) →
          dispatchOverload fs args = Except.error noOverloadFound)
    ∧ dispatchOverload [appendStrStr, appendStrInt]
        [JsValue.jsStr "hello", JsValue.jsNum 123] =
        Except.ok (JsValue.jsStr "hello123")
    ∧ dispatchOverload [appendStrStr, appendStrInt]
        [JsValue.jsNum 123, JsValue.jsStr "world"] =
        Except.error noOverloadFound := by
  refine ⟨?_, ?_, ?_, rfl, rfl⟩
  · intro f rest args v h
    cases rest with
    | nil => simp [dispatchOverload, h]
    | cons g rest => simp [dispatchOverload, h]
  · intro f g rest args e h
    simp [dispatchOverload, h]
  · intro fs args hne hall
    induction fs with
    | nil => exact absurd rfl hne
    | cons f rest ih =>
      obtain ⟨e, he⟩ := hall f (by simp)
      cases rest with
      | nil => simp [dispatchOverload, he]
      | cons g rest2 =>
        have := ih (by simp) (fun f2 hf2 => hall f2 (by simp [hf2]))
        simp [dispatchOverload, he, this]

/-- Witness for C6: all candidates failing on `(int, int)` arguments yields
`NoOverloadFound`, obtained by applying the dispatch theorem to the concrete
overload set. -/
theorem v8kit_C6_witness :
    dispatchOverload [appendStrStr] [JsValue.jsNum 1, JsValue.jsNum 2] =
      Except.error noOverloadFound :=
  v8kit_C6_overload_dispatch.2.2.1 [appendStrStr]
    [JsValue.jsNum 1, JsValue.jsNum 2] (by simp)
    (fun f hf => by
      simp only [List.mem_singleton] at hf
      subst hf
      exact ⟨⟨ExcType.typeError, "Value is not a String"⟩, rfl⟩)

/-- Round-trip helper: if every element of a list round-trips through the
element converter, the element loop of the vector converter reproduces the
list (in particular preserving element order). -/
theorem mapToCpp_roundtrip {α : Type} (c : Conv α) (l : List α)
    (h : ∀ a ∈ l, c.toCpp (c.toJs a) = Except.ok a) :
    mapToCpp c.toCpp (l.map c.toJs) = Except.ok l := by
  induction l with
  | nil => rfl
  | cons a as ih =>
    simp only [List.map_cons, mapToCpp]
    rw [h a (by simp)]
    rw [ih fun x hx => h x (by simp [hx])]
    rfl

/-- Claim C8: the round-trip law.  Booleans, strings, `int` values (within the
32-bit domain of the C++ type), and `int64_t` values (within the 64-bit
domain) convert to the managed side and back to the identical value; vectors
round-trip element-wise preserving order; optionals of such values round-trip,
with the absent optional passing through the managed null back to absence. -/
theorem v8kit_C8_roundtrip :
    (∀ b : Bool, boolConv.toCpp (boolConv.toJs b) = Except.ok b)
    ∧ (∀ s : String, strConv.toCpp (strConv.toJs s) = Except.ok s)
    ∧ (∀ n : Int, -(2 ^ 31) ≤ n → n < 2 ^ 31 →
        intConv.toCpp (intConv.toJs n) = Except.ok n)
    ∧ (∀ n : Int, -(2 ^ 63) ≤ n → n < 2 ^ 63 →
        int64Conv.toCpp (int64Conv.toJs n) = Except.ok n)
    ∧ (∀ l : List String,
        (vectorConv strConv).toCpp ((vectorConv strConv).toJs l) = Except.ok l)
    ∧ (∀ l : List Int, (∀ n ∈ l, -(2 ^ 31) ≤ n ∧ n < 2 ^ 31) →
        (vectorConv intConv).toCpp ((vectorConv intConv).toJs l) = Except.ok l)
    ∧ (∀ o : Option String,
        (optionConv strConv).toCpp ((optionConv strConv).toJs o) = Except.ok o)
    ∧ (optionConv strConv).toJs none = JsValue.jsNull
    ∧ (optionConv strConv).toCpp JsValue.jsNull = Except.ok none := by
  refine ⟨?_, ?_, ?_, ?_, ?_, ?_, ?_, rfl, rfl⟩
  · intro b; rfl
  · intro s; rfl
  · intro n _ _; rfl
  · intro n h₁ h₂
    have hw : wrap64 n = n := by
      unfold wrap64
      split <;> omega
    simp only [int64Conv, int64ToJs, int64ToCpp, hw]
  · intro l
    exact mapToCpp_roundtrip strConv l fun a _ => rfl
  · intro l hl
    exact mapToCpp_roundtrip intConv l fun a _ => rfl
  · intro o
    cases o with
    | none => rfl
    | some s => rfl

/-- Witness for C8: the singleton int vector `[7]` and the present optional
`some "x"` round-trip, obtained by applying the round-trip theorem at those
inputs. -/
theorem v8kit_C8_witness :
    (vectorConv intConv).toCpp ((vectorConv intConv).toJs [7]) = Except.ok [7]
    ∧ (optionConv strConv).toCpp ((optionConv strConv).toJs (some "x")) =
        Except.ok (some "x") :=
  ⟨v8kit_C8_roundtrip.2.2.2.2.2.1 [7] (by decide),
   v8kit_C8_roundtrip.2.2.2.2.2.2.1 (some "x")⟩

/-- Claim C9 counterexample: an instance read-only property gets no setter
installed at all (no TypeError-throwing stub like the static path), so a
sloppy-mode write to it produces no error whatsoever — it is silently ignored
(the native value stays unchanged).  The claim that every write to a read-only
property fails with a TypeError-class error is therefore false for instance
properties. -/
theorem v8kit_C9_counterexample :
    buildInstancePropertySlot false = JsSetterSlot.noSetter
    ∧ hostWrite (buildInstancePropertySlot false) false (fun v => v + 1) 5 =
        Except.ok 5 := by
  exact ⟨rfl, rfl⟩

/-- Claim C9 (amended): a write to a static read-only property always fails
with the TypeError "Cannot write to read-only native property" and leaves the
native value unchanged.  An instance read-only property has no setter
installed: the write never reaches native code and the native value is always
unchanged, but the rejection is the host VM's — a TypeError only in strict
mode, a silent no-op in sloppy mode. -/
theorem v8kit_C9_readonly_write_behavior :
    (∀ (strict : Bool) (f : Int → Int) (cur : Int),
        hostWrite (buildStaticPropertySlot false) strict f cur =
          Except.error readonlyWriteExc)
    ∧ (∀ (f : Int → Int) (cur : Int),
        hostWrite (buildInstancePropertySlot false) true f cur =
          Except.error strictNoSetterExc)
    ∧ (∀ (strict : Bool) (f : Int → Int) (cur v : Int),
        hostWrite (buildInstancePropertySlot false) strict f cur =
          Except.ok v → v = cur)
    ∧ (∀ (strict : Bool) (f : Int → Int) (cur : Int),
        hostWrite (buildStaticPropertySlot true) strict f cur =
          Except.ok (f cur)) := by
  refine ⟨fun strict f cur => rfl, fun f cur => rfl, ?_, fun strict f cur => rfl⟩
  intro strict f cur v h
  cases strict with
  | true => simp [hostWrite, buildInstancePropertySlot] at h
  | false =>
    simp [hostWrite, buildInstancePropertySlot] at h
    omega

/-- Witness for C9: a sloppy-mode write attempt against an instance read-only
property completes without touching the native value 9, and the amended
theorem confirms the returned value is the unchanged one. -/
theorem v8kit_C9_witness :
    hostWrite (buildInstancePropertySlot false) false (fun v => v + 2) 9 =
      Except.ok 9
    ∧ (9 : Int) = 9 :=
  ⟨rfl, v8kit_C9_readonly_write_behavior.2.2.1 false (fun v => v + 2) 9 9 rfl⟩
